import Mathlib

/-!
# Verification of the Adafruit CAP1188 capacitive-touch driver

A shallow embedding of the CAP1188 driver (`Adafruit_CAP1188.cpp`, both the
current BusIO-based variant and the legacy Wire/bit-bang variant) together
with proofs of the spec's testable properties.

Register values and addresses are modelled as `Nat` with explicit `% 256`
truncation where the C++ `uint8_t` types truncate.  The chip on the other
side of the bus is modelled as an abstract stateful responder (an oracle),
so that every theorem quantifies over all possible chip behaviours; the
"faithful simulated chip" of the spec's round-trip property is a concrete
instance (a byte-addressed register file).
-/

namespace CAP1188

/-! ## Register map constants (from `Adafruit_CAP1188.h`) -/

def CAP1188_SENINPUTSTATUS : Nat := 0x03
def CAP1188_MTBLK : Nat := 0x2A
def CAP1188_LEDLINK : Nat := 0x72
def CAP1188_PRODID : Nat := 0xFD
def CAP1188_MANUID : Nat := 0xFE
def CAP1188_STANDBYCFG : Nat := 0x41
def CAP1188_REV : Nat := 0xFF
def CAP1188_MAIN : Nat := 0x00
def CAP1188_MAIN_INT : Nat := 0x01
def CAP1188_LEDPOL : Nat := 0x73

/-! ## Register-level model

`Chip σ` is an arbitrary stateful device sitting behind the register
read/write protocol: `read` returns a (possibly state-dependent) value and a
new chip state, `write` updates the chip state.  The driver's register
operations log `RegEvent`s so that claims about *which* bus accesses an
operation performs can be stated as facts about the event trace. -/

structure Chip (σ : Type) where
  read : σ → Nat → Nat × σ
  write : σ → Nat → Nat → σ

inductive RegEvent where
  | rd (reg val : Nat)
  | wr (reg val : Nat)
deriving DecidableEq, Repr

structure BusState (σ : Type) where
  chip : σ
  log : List RegEvent

/-- Value returned by a `readRegister` call on chip state `s`
(truncated to a byte, as the C++ return type `uint8_t` does). -/
def readVal {σ : Type} (c : Chip σ) (s : σ) (reg : Nat) : Nat :=
  (c.read s reg).1 % 256

/-- Chip state after a `readRegister` call on chip state `s`. -/
def readSt {σ : Type} (c : Chip σ) (s : σ) (reg : Nat) : σ :=
  (c.read s reg).2

/-- `uint8_t Adafruit_CAP1188::readRegister(uint8_t reg)` at the register
level: one read transaction against the chip, logged. -/
def readRegister {σ : Type} (c : Chip σ) (reg : Nat) (b : BusState σ) :
    Nat × BusState σ :=
  (readVal c b.chip reg,
   ⟨readSt c b.chip reg, b.log ++ [.rd reg (readVal c b.chip reg)]⟩)

/-- `void Adafruit_CAP1188::writeRegister(uint8_t reg, uint8_t value)` at the
register level: one write transaction against the chip, logged.  The value is
truncated to a byte as the `uint8_t` parameter does. -/
def writeRegister {σ : Type} (c : Chip σ) (reg v : Nat) (b : BusState σ) :
    BusState σ :=
  ⟨c.write b.chip reg (v % 256), b.log ++ [.wr reg (v % 256)]⟩

/-- The body of `Adafruit_CAP1188::begin` after the bus has been opened
successfully and the (optional) reset pulse has been driven:

```cpp
  readRegister(CAP1188_PRODID);            // result discarded
  Serial.println(readRegister(CAP1188_PRODID), HEX);   // printed only
  Serial.println(readRegister(CAP1188_MANUID), HEX);   // printed only
  Serial.println(readRegister(CAP1188_REV), HEX);      // printed only
  if ((readRegister(CAP1188_PRODID) != 0x50) ||
      (readRegister(CAP1188_MANUID) != 0x5D) ||
      (readRegister(CAP1188_REV) != 0x83)) {
    return false;
  }
  writeRegister(CAP1188_MTBLK, 0);
  writeRegister(CAP1188_LEDLINK, 0xFF);
  writeRegister(CAP1188_STANDBYCFG, 0x30);
  return true;
```

The nested `if`s encode C++'s short-circuiting `||`: a later identity read
only happens when every earlier one matched. -/
def beginBody {σ : Type} (c : Chip σ) (b : BusState σ) : Bool × BusState σ :=
  let (_, b) := readRegister c CAP1188_PRODID b
  let (_, b) := readRegister c CAP1188_PRODID b
  let (_, b) := readRegister c CAP1188_MANUID b
  let (_, b) := readRegister c CAP1188_REV b
  let (p, b) := readRegister c CAP1188_PRODID b
  if p ≠ 0x50 then (false, b)
  else
    let (m, b) := readRegister c CAP1188_MANUID b
    if m ≠ 0x5D then (false, b)
    else
      let (r, b) := readRegister c CAP1188_REV b
      if r ≠ 0x83 then (false, b)
      else
        let b := writeRegister c CAP1188_MTBLK 0 b
        let b := writeRegister c CAP1188_LEDLINK 0xFF b
        let b := writeRegister c CAP1188_STANDBYCFG 0x30 b
        (true, b)

/-- `uint8_t Adafruit_CAP1188::touched()`:

```cpp
  uint8_t t = readRegister(CAP1188_SENINPUTSTATUS);
  if (t) {
    writeRegister(CAP1188_MAIN, readRegister(CAP1188_MAIN) & ~CAP1188_MAIN_INT);
  }
  return t;
```

`~CAP1188_MAIN_INT` is C++ integer complement; masked onto a byte it equals
`&&& (255 ^^^ CAP1188_MAIN_INT)`. -/
def touched {σ : Type} (c : Chip σ) (b : BusState σ) : Nat × BusState σ :=
  let (t, b) := readRegister c CAP1188_SENINPUTSTATUS b
  if t ≠ 0 then
    let (m, b) := readRegister c CAP1188_MAIN b
    let b := writeRegister c CAP1188_MAIN (m &&& (255 ^^^ CAP1188_MAIN_INT)) b
    (t, b)
  else (t, b)

/-- `void Adafruit_CAP1188::LEDpolarity(uint8_t inverted)`. -/
def LEDpolarity {σ : Type} (c : Chip σ) (inverted : Nat) (b : BusState σ) :
    BusState σ :=
  writeRegister c CAP1188_LEDPOL inverted b

/-- The spec's "faithful simulated chip": a byte-addressed register file that
stores writes and serves reads. -/
def regFile : Chip (Nat → Nat) where
  read s r := (s r, s)
  write s r v := fun x => if x = r then v else s x

/-! ### States and values of the identity-check reads

`begin` issues four identity reads before the check (one discarded, three
printed) and then re-reads for the actual comparison; these definitions name
the chip states and values at each check read. -/

/-- Chip state after the four pre-check identity reads of `begin`. -/
def stAfterPrints {σ : Type} (c : Chip σ) (s : σ) : σ :=
  readSt c (readSt c (readSt c (readSt c s CAP1188_PRODID) CAP1188_PRODID)
    CAP1188_MANUID) CAP1188_REV

/-- Value of the product-ID read actually used by the identity check. -/
def checkProd {σ : Type} (c : Chip σ) (s : σ) : Nat :=
  readVal c (stAfterPrints c s) CAP1188_PRODID

/-- Chip state after the checked product-ID read. -/
def stAfterProd {σ : Type} (c : Chip σ) (s : σ) : σ :=
  readSt c (stAfterPrints c s) CAP1188_PRODID

/-- Value of the manufacturer-ID read actually used by the identity check
(issued only when the product-ID check passed). -/
def checkManu {σ : Type} (c : Chip σ) (s : σ) : Nat :=
  readVal c (stAfterProd c s) CAP1188_MANUID

/-- Chip state after the checked manufacturer-ID read. -/
def stAfterManu {σ : Type} (c : Chip σ) (s : σ) : σ :=
  readSt c (stAfterProd c s) CAP1188_MANUID

/-- Value of the revision read actually used by the identity check
(issued only when both earlier checks passed). -/
def checkRev {σ : Type} (c : Chip σ) (s : σ) : Nat :=
  readVal c (stAfterManu c s) CAP1188_REV

/-- The write events of a register-event trace. -/
def regWrites (l : List RegEvent) : List RegEvent :=
  l.filter fun e => match e with | .wr _ _ => true | .rd _ _ => false

/-- Number of identity-register reads (product ID, manufacturer ID, revision)
in a register-event trace. -/
def idReads (l : List RegEvent) : Nat :=
  (l.filter fun e => match e with
    | .rd r _ => r == CAP1188_PRODID || r == CAP1188_MANUID || r == CAP1188_REV
    | .wr _ _ => false).length

/-- Register file in which every register reads zero. -/
def zeroRegs : Nat → Nat := fun _ => 0

/-- Register file whose identity registers hold the expected constants. -/
def goodRegs : Nat → Nat := fun r =>
  if r = CAP1188_PRODID then 0x50
  else if r = CAP1188_MANUID then 0x5D
  else if r = CAP1188_REV then 0x83 else 0

/-- Register file in which only sensor input 1 reports a touch and MAIN
holds 0x31 (interrupt bit set plus some other control bits). -/
def touchRegs : Nat → Nat := fun r =>
  if r = CAP1188_SENINPUTSTATUS then 0x01
  else if r = CAP1188_MAIN then 0x31 else 0

/-! ## SPI transport (legacy variant, `src/Adafruit_CAP1188.cpp`)

The legacy SPI register protocol drives chip-select and transfers bytes
itself.  `SpiBus` abstracts the byte-transfer layer (a hardware SPI
peripheral or the bit-banged `spixfer` loop); `SpiResponder` is the chip on
the other side, and `logSpiBus` wraps a responder while recording every
chip-select edge and byte transfer. -/

inductive SpiEvent where
  | csLow
  | csHigh
  | xfer (mosi miso : Nat)
deriving DecidableEq, Repr

structure SpiBus (β : Type) where
  csLow : β → β
  csHigh : β → β
  xfer : β → Nat → Nat × β

structure SpiResponder (τ : Type) where
  step : τ → Nat → Nat × τ
  csEdge : τ → τ

/-- `uint8_t Adafruit_CAP1188::spixfer(uint8_t data)` viewed at the byte
level: one full-duplex byte transfer; argument and reply are truncated to a
byte as the `uint8_t` types do. -/
def spixfer {β : Type} (bus : SpiBus β) (data : Nat) (b : β) : Nat × β :=
  let (r, b) := bus.xfer b (data % 256)
  (r % 256, b)

/-- The SPI branch of `Adafruit_CAP1188::readRegister` (legacy variant):

```cpp
  digitalWrite(_cs, LOW);
  spixfer(0x7D); spixfer(reg);
  digitalWrite(_cs, HIGH);
  digitalWrite(_cs, LOW);
  spixfer(0x7F);
  uint8_t reply = spixfer(0);
  digitalWrite(_cs, HIGH);
  return reply;
``` -/
def spiReadRegister {β : Type} (bus : SpiBus β) (reg : Nat) (b : β) :
    Nat × β :=
  let b := bus.csLow b
  let (_, b) := spixfer bus 0x7D b
  let (_, b) := spixfer bus reg b
  let b := bus.csHigh b
  let b := bus.csLow b
  let (_, b) := spixfer bus 0x7F b
  let (reply, b) := spixfer bus 0 b
  let b := bus.csHigh b
  (reply, b)

/-- The SPI branch of `Adafruit_CAP1188::writeRegister` (legacy variant):
same two chip-select phases, with command byte 0x7E and the value in the
second phase. -/
def spiWriteRegister {β : Type} (bus : SpiBus β) (reg v : Nat) (b : β) : β :=
  let b := bus.csLow b
  let (_, b) := spixfer bus 0x7D b
  let (_, b) := spixfer bus reg b
  let b := bus.csHigh b
  let b := bus.csLow b
  let (_, b) := spixfer bus 0x7E b
  let (_, b) := spixfer bus v b
  let b := bus.csHigh b
  b

/-- Wraps an SPI responder as a bus that records every chip-select edge and
byte transfer. -/
def logSpiBus {τ : Type} (c : SpiResponder τ) : SpiBus (τ × List SpiEvent) where
  csLow := fun p => (c.csEdge p.1, p.2 ++ [.csLow])
  csHigh := fun p => (c.csEdge p.1, p.2 ++ [.csHigh])
  xfer := fun p d =>
    let (r, t) := c.step p.1 d
    (r, (t, p.2 ++ [.xfer d r]))

/-- An SPI responder as a plain bus (no event log). -/
def spiChipBus {τ : Type} (c : SpiResponder τ) : SpiBus τ where
  csLow := c.csEdge
  csHigh := c.csEdge
  xfer := c.step

/-! ## Software (bit-banged) SPI byte transfer (legacy variant)

The pin-level trace of the software branch of `spixfer`.  `misoIn i` is the
level of the MISO line when bit `i` is clocked (sampled right after the
rising clock edge). -/

inductive PinEvent where
  | clkLow
  | clkHigh
  | mosiWrite (level : Bool)
  | misoRead (level : Bool)
deriving DecidableEq, Repr

/-- One iteration per entry of the index list `[7, 6, ..., 0]`:

```cpp
  for (int i = 7; i >= 0; i--) {
    reply <<= 1;
    digitalWrite(_clk, LOW);
    digitalWrite(_mosi, data & (1 << i));   // any nonzero value drives HIGH
    digitalWrite(_clk, HIGH);
    if (digitalRead(_miso)) reply |= 1;
  }
```

`reply` is a `uint8_t`, so the shift truncates mod 256. -/
def softSpiLoop (d : Nat) (misoIn : Nat → Bool) :
    List Nat → Nat → Nat × List PinEvent
  | [], reply => (reply, [])
  | i :: rest, reply =>
    let reply := reply * 2 % 256
    let lvl := decide (d &&& (1 <<< i) ≠ 0)
    let b := misoIn i
    let reply := if b then reply ||| 1 else reply
    let (r, evs) := softSpiLoop d misoIn rest reply
    (r, [.clkLow, .mosiWrite lvl, .clkHigh, .misoRead b] ++ evs)

/-- The software-SPI branch of `uint8_t Adafruit_CAP1188::spixfer(uint8_t)`:
clocks the eight bits of `data` MSB-first, returning the assembled reply and
the pin-level trace.  The `uint8_t` parameter truncates `data` to a byte. -/
def spixferSoft (data : Nat) (misoIn : Nat → Bool) : Nat × List PinEvent :=
  softSpiLoop (data % 256) misoIn [7, 6, 5, 4, 3, 2, 1, 0] 0

/-- The pin-level trace the claim expects of a software SPI byte transfer:
for each bit `i` from 7 down to 0, a falling clock edge, MOSI driven with bit
`i` of the data byte, a rising clock edge, and a MISO sample. -/
def softTrace (data : Nat) (misoIn : Nat → Bool) : List PinEvent :=
  [.clkLow, .mosiWrite ((data % 256).testBit 7), .clkHigh, .misoRead (misoIn 7),
   .clkLow, .mosiWrite ((data % 256).testBit 6), .clkHigh, .misoRead (misoIn 6),
   .clkLow, .mosiWrite ((data % 256).testBit 5), .clkHigh, .misoRead (misoIn 5),
   .clkLow, .mosiWrite ((data % 256).testBit 4), .clkHigh, .misoRead (misoIn 4),
   .clkLow, .mosiWrite ((data % 256).testBit 3), .clkHigh, .misoRead (misoIn 3),
   .clkLow, .mosiWrite ((data % 256).testBit 2), .clkHigh, .misoRead (misoIn 2),
   .clkLow, .mosiWrite ((data % 256).testBit 1), .clkHigh, .misoRead (misoIn 1),
   .clkLow, .mosiWrite ((data % 256).testBit 0), .clkHigh, .misoRead (misoIn 0)]

/-- The byte assembled MSB-first from the eight sampled MISO levels: the bit
clocked while the loop index was `i` lands at bit position `i`. -/
def byteOfBits (m : Nat → Bool) : Nat :=
  (m 0).toNat + 2 * (m 1).toNat + 4 * (m 2).toNat + 8 * (m 3).toNat +
    16 * (m 4).toNat + 32 * (m 5).toNat + 64 * (m 6).toNat + 128 * (m 7).toNat

/-! ## A faithful simulated CAP1188 SPI slave

Modelled from the chip's SPI command protocol as the spec records it
(command bytes: 0x7D sets the register address, 0x7E writes the next byte to
the addressed register, 0x7F answers the next transfer with the addressed
register's value).  This is the simulated chip the round-trip property runs
against; it is the environment of the driver, not repository code. -/

structure CapSpiState where
  regs : Nat → Nat
  addr : Nat
  pend : Option Nat

def capSpiStep (st : CapSpiState) (data : Nat) : Nat × CapSpiState :=
  match st.pend with
  | some p =>
    if p = 0x7D then (0, { st with addr := data, pend := none })
    else if p = 0x7E then
      (0, { st with pend := none,
                    regs := fun x => if x = st.addr then data else st.regs x })
    else (st.regs st.addr, { st with pend := none })
  | none =>
    if data = 0x7D ∨ data = 0x7E ∨ data = 0x7F then
      (0, { st with pend := some data })
    else (0, st)

def capSpiChip : SpiResponder CapSpiState where
  step := capSpiStep
  csEdge := fun st => { st with pend := none }

/-! ## BusIO-style devices (current variant, `src/unnamed/part_000`)

The current driver delegates each register transaction to a bus device
exposing `write` and an atomic combined `write_then_read` (the I2C device
addresses the slave internally, the SPI device frames each transaction with
chip-select internally).  `BusTxn` records the transactions a device was
asked to perform. -/

inductive BusTxn where
  | wr (bytes : List Nat)
  | wtr (bytes : List Nat) (readLen : Nat)
deriving DecidableEq, Repr

structure BusDev (β : Type) where
  write : β → List Nat → β
  write_then_read : β → List Nat → Nat → List Nat × β

structure BusResponder (τ : Type) where
  doWrite : τ → List Nat → τ
  doWtr : τ → List Nat → Nat → List Nat × τ

/-- Wraps a bus responder as a device that records every transaction. -/
def logBusDev {τ : Type} (r : BusResponder τ) : BusDev (τ × List BusTxn) where
  write := fun p bs => (r.doWrite p.1 bs, p.2 ++ [.wr bs])
  write_then_read := fun p bs n =>
    let (res, t) := r.doWtr p.1 bs n
    (res, (t, p.2 ++ [.wtr bs n]))

/-- A bus responder as a plain device (no transaction log). -/
def busDevOf {τ : Type} (r : BusResponder τ) : BusDev τ where
  write := r.doWrite
  write_then_read := r.doWtr

/-- A trivial bus responder that ignores writes and answers every read byte
with 0. -/
def nullResponder : BusResponder Unit where
  doWrite _ _ := ()
  doWtr _ _ n := ((List.range n).map fun _ => 0, ())

/-- The I2C branch of `Adafruit_CAP1188::readRegister` (current variant):

```cpp
  uint8_t buffer[3] = {reg, 0, 0};
  i2c_dev->write_then_read(buffer, 1, buffer, 1);
  return buffer[0];
``` -/
def readRegisterI2C {β : Type} (dev : BusDev β) (reg : Nat) (b : β) :
    Nat × β :=
  let (resp, b) := dev.write_then_read b [reg % 256] 1
  (resp.headD 0 % 256, b)

/-- The I2C branch of `Adafruit_CAP1188::writeRegister` (current variant):
`i2c_dev->write(buffer, 2)` with `buffer = {reg, value}`. -/
def writeRegisterI2C {β : Type} (dev : BusDev β) (reg v : Nat) (b : β) : β :=
  dev.write b [reg % 256, v % 256]

/-- The SPI branch of `Adafruit_CAP1188::readRegister` (current variant):
`spi_dev->write_then_read({0x7D, reg, 0x7F}, 3, buffer, 1)`. -/
def readRegisterSPI {β : Type} (dev : BusDev β) (reg : Nat) (b : β) :
    Nat × β :=
  let (resp, b) := dev.write_then_read b [0x7D, reg % 256, 0x7F] 1
  (resp.headD 0 % 256, b)

/-- The SPI branch of `Adafruit_CAP1188::writeRegister` (current variant):
`spi_dev->write({0x7D, reg, 0x7E, value}, 4)`. -/
def writeRegisterSPI {β : Type} (dev : BusDev β) (reg v : Nat) (b : β) : β :=
  dev.write b [0x7D, reg % 256, 0x7E, v % 256]

/-! ## Legacy Wire-level I2C (`src/Adafruit_CAP1188.cpp`)

The legacy I2C path speaks the Arduino `Wire` API directly; note that
`endTransmission()` with no argument sends a stop condition on the bus
before the subsequent `requestFrom` starts a new read transaction. -/

inductive WireEvent where
  | beginTx (addr : Nat)
  | writeByte (b : Nat)
  | stop
  | requestFrom (addr n : Nat)
  | readByte (v : Nat)
deriving DecidableEq, Repr

structure WireBus (ω : Type) where
  beginTransmission : ω → Nat → ω
  write : ω → Nat → ω
  endTransmission : ω → ω
  requestFrom : ω → Nat → Nat → ω
  read : ω → Nat × ω

/-- The I2C branch of `Adafruit_CAP1188::readRegister` (legacy variant):

```cpp
  _wire->beginTransmission(_i2caddr);
  i2cwrite(reg);
  _wire->endTransmission();          // sends a stop condition
  _wire->requestFrom(_i2caddr, 1);
  return (_wire->read());
``` -/
def legacyReadRegisterI2C {ω : Type} (w : WireBus ω) (addr reg : Nat)
    (b : ω) : Nat × ω :=
  let b := w.beginTransmission b addr
  let b := w.write b (reg % 256)
  let b := w.endTransmission b
  let b := w.requestFrom b addr 1
  w.read b

/-- The I2C branch of `Adafruit_CAP1188::writeRegister` (legacy variant). -/
def legacyWriteRegisterI2C {ω : Type} (w : WireBus ω) (addr reg v : Nat)
    (b : ω) : ω :=
  let b := w.beginTransmission b addr
  let b := w.write b (reg % 256)
  let b := w.write b (v % 256)
  w.endTransmission b

/-- A `Wire` implementation that records the bus events and answers every
read with 0. -/
def logWire : WireBus (List WireEvent) where
  beginTransmission l a := l ++ [.beginTx a]
  write l b := l ++ [.writeByte b]
  endTransmission l := l ++ [.stop]
  requestFrom l a n := l ++ [.requestFrom a n]
  read l := (0, l ++ [.readByte 0])

/-- Stores a list of bytes at consecutive register addresses starting at
`a`. -/
def storeFrom (regs : Nat → Nat) (a : Nat) : List Nat → (Nat → Nat)
  | [] => regs
  | d :: ds => storeFrom (fun x => if x = a then d else regs x) (a + 1) ds

/-- A faithful simulated CAP1188 I2C slave behind the `Wire` API, modelled
from the chip's I2C register protocol as the spec records it: the first
byte of a write transaction sets the register address pointer, following
bytes are stored from that address, and a read request serves bytes starting
at the pointer. -/
structure WireChipState where
  regs : Nat → Nat
  ptr : Nat
  txbuf : List Nat
  rx : List Nat

def wireChip : WireBus WireChipState where
  beginTransmission st _a := { st with txbuf := [] }
  write st b := { st with txbuf := st.txbuf ++ [b] }
  endTransmission st :=
    match st.txbuf with
    | [] => st
    | a :: ds =>
      { st with txbuf := [], ptr := a, regs := storeFrom st.regs a ds }
  requestFrom st _a n :=
    { st with rx := (List.range n).map fun i => st.regs (st.ptr + i) }
  read st := (st.rx.headD 0, { st with rx := st.rx.tail })

/-- A faithful simulated CAP1188 I2C slave behind the BusIO primitives:
a write transaction `[reg, bytes...]` stores the bytes starting at `reg`;
a combined write-then-read `[reg]` answers with the registers from `reg`. -/
def i2cChip : BusResponder (Nat → Nat) where
  doWrite regs bs :=
    match bs with
    | [] => regs
    | a :: ds => storeFrom regs a ds
  doWtr regs bs n :=
    match bs with
    | [] => ((List.range n).map fun _ => 0, regs)
    | a :: _ => ((List.range n).map fun i => regs (a + i), regs)

/-- A faithful simulated CAP1188 SPI slave behind the BusIO primitives: each
transaction is one chip-select frame; during the read phase the device
clocks dummy 0xFF bytes while collecting the responses. -/
def capSpiWriteBytes (st : CapSpiState) : List Nat → CapSpiState
  | [] => st
  | b :: bs => capSpiWriteBytes (capSpiStep st b).2 bs

def capSpiReadBytes (st : CapSpiState) : Nat → List Nat × CapSpiState
  | 0 => ([], st)
  | n + 1 =>
    let (r, st1) := capSpiStep st 0xFF
    let (rs, st2) := capSpiReadBytes st1 n
    (r :: rs, st2)

def capSpiBusDev : BusDev CapSpiState where
  write st bs := capSpiWriteBytes { st with pend := none } bs
  write_then_read st bs n :=
    capSpiReadBytes (capSpiWriteBytes { st with pend := none } bs) n

/-! ## Transport selection (current variant, `src/unnamed/part_000` and the
header in `src/unnamed/part_001`)

The instance fields that decide the transport: `spi_dev` is non-null exactly
when an SPI constructor ran, `i2c_dev` becomes non-null when `begin()` runs
on an instance without an SPI device.  Every register operation dispatches
on `if (i2c_dev)`; none of `readRegister`, `writeRegister`, `touched`,
`LEDpolarity` assigns either device field, which the `opFields` cases below
record. -/

structure CapDriver where
  i2cDev : Bool
  spiDev : Bool
  resetpin : Int
deriving DecidableEq, Repr

/-- `Adafruit_CAP1188::Adafruit_CAP1188(int8_t resetpin)`: hardware I2C
constructor; both device pointers are the null defaults. -/
def mkI2C (resetpin : Int) : CapDriver := ⟨false, false, resetpin⟩

/-- `Adafruit_CAP1188(uint8_t cspin, int8_t resetpin, SPIClass *theSPI)`:
hardware SPI constructor; allocates `spi_dev`. -/
def mkHwSPI (_cspin : Nat) (resetpin : Int) : CapDriver :=
  ⟨false, true, resetpin⟩

/-- `Adafruit_CAP1188(uint8_t clkpin, uint8_t misopin, uint8_t mosipin,
uint8_t cspin, int8_t resetpin)`: software SPI constructor; allocates
`spi_dev`. -/
def mkSwSPI (_clkpin _misopin _mosipin _cspin : Nat) (resetpin : Int) :
    CapDriver :=
  ⟨false, true, resetpin⟩

inductive DriverOp where
  | beginOp
  | readReg (reg : Nat)
  | writeReg (reg v : Nat)
  | touchedOp
  | ledPolarity (x : Nat)

/-- The effect of `begin()` on the device fields: with an SPI device present
it only opens that device; otherwise it allocates the I2C device. -/
def beginFields (d : CapDriver) : CapDriver :=
  if d.spiDev then d else { d with i2cDev := true }

/-- The effect of each public operation on the device fields; the register
operations and `touched`/`LEDpolarity` never assign them. -/
def opFields (d : CapDriver) : DriverOp → CapDriver
  | .beginOp => beginFields d
  | .readReg _ => d
  | .writeReg _ _ => d
  | .touchedOp => d
  | .ledPolarity _ => d

def opsFields (d : CapDriver) (l : List DriverOp) : CapDriver :=
  l.foldl opFields d

inductive Transport where
  | i2c
  | spi
deriving DecidableEq, Repr

/-- The transport a register operation takes: `readRegister`,
`writeRegister` (and through them `touched` and `LEDpolarity`) branch on
`if (i2c_dev)`. -/
def transportUsed (d : CapDriver) : Transport :=
  if d.i2cDev then .i2c else .spi

/-- Which events of a software-SPI pin trace drove the MOSI line. -/
def mosiLevels (l : List PinEvent) : List Bool :=
  l.filterMap fun e => match e with
    | .mosiWrite b => some b
    | _ => none

end CAP1188

namespace CAP1188

/-! ## Helper lemmas -/

theorem and_one_shiftLeft (d i : Nat) :
    decide (d &&& (1 <<< i) ≠ 0) = d.testBit i := by
  rw [Nat.one_shiftLeft, Nat.and_two_pow]
  have h2 : (2 : Nat) ^ i ≠ 0 := Nat.ne_of_gt (Nat.two_pow_pos i)
  cases h : d.testBit i <;> simp [h, h2]

theorem softxfer_events (data : Nat) (misoIn : Nat → Bool) :
    (spixferSoft data misoIn).2 = softTrace data misoIn := by
  simp only [spixferSoft, softSpiLoop, softTrace, and_one_shiftLeft,
    List.cons_append, List.nil_append]

set_option maxHeartbeats 4000000 in
theorem softxfer_reply (data : Nat) (misoIn : Nat → Bool) :
    (spixferSoft data misoIn).1 = byteOfBits misoIn := by
  cases h7 : misoIn 7 <;> cases h6 : misoIn 6 <;> cases h5 : misoIn 5 <;>
    cases h4 : misoIn 4 <;> cases h3 : misoIn 3 <;> cases h2 : misoIn 2 <;>
    cases h1 : misoIn 1 <;> cases h0 : misoIn 0 <;>
    simp [spixferSoft, softSpiLoop, byteOfBits, h7, h6, h5, h4, h3, h2, h1, h0]

theorem opsFields_fixed (d : CapDriver) (h : beginFields d = d) :
    ∀ l, opsFields d l = d := by
  intro l
  induction l with
  | nil => rfl
  | cons op l ih =>
    have hop : opFields d op = d := by cases op <;> simp [opFields, h]
    simp only [opsFields, List.foldl_cons, hop]
    exact ih

/-! ## The claims -/

/-- C1: if the bus opened and any of the identity-register reads used for
the check (product ID 0xFD, manufacturer ID 0xFE, revision 0xFF) returns a
value other than 0x50, 0x5D, 0x83 respectively, then `begin()` returns
false without issuing any register write (in particular none of the three
configuration writes). -/
theorem claim_begin_fails_on_identity_mismatch {σ : Type} (c : Chip σ)
    (s : σ)
    (h : checkProd c s ≠ 0x50 ∨ checkManu c s ≠ 0x5D ∨ checkRev c s ≠ 0x83) :
    (beginBody c ⟨s, []⟩).1 = false ∧
      regWrites (beginBody c ⟨s, []⟩).2.log = [] := by
  by_cases h1 : checkProd c s = 0x50
  · by_cases h2 : checkManu c s = 0x5D
    · by_cases h3 : checkRev c s = 0x83
      · rcases h with h | h | h <;> exact absurd (by assumption) h
      · simp only [beginBody, readRegister, checkProd, checkManu, checkRev,
          stAfterPrints, stAfterProd, stAfterManu] at *
        simp [h1, h2, h3, regWrites]
    · simp only [beginBody, readRegister, checkProd, checkManu, checkRev,
        stAfterPrints, stAfterProd, stAfterManu] at *
      simp [h1, h2, regWrites]
  · simp only [beginBody, readRegister, checkProd, checkManu, checkRev,
      stAfterPrints, stAfterProd, stAfterManu] at *
    simp [h1, regWrites]

theorem claim_begin_fails_on_identity_mismatch_witness :
    (beginBody regFile ⟨zeroRegs, []⟩).1 = false ∧
      regWrites (beginBody regFile ⟨zeroRegs, []⟩).2.log = [] :=
  claim_begin_fails_on_identity_mismatch regFile zeroRegs (Or.inl (by decide))

/-- C2: if the bus opened and the three identity-register reads used for the
check return 0x50, 0x5D, 0x83 respectively, `begin()` returns true and its
whole register trace consists of the seven identity reads followed by
exactly the three configuration writes MTBLK (0x2A) = 0, LEDLINK (0x72) =
0xFF, STANDBYCFG (0x41) = 0x30, in that order, and no other write. -/
theorem claim_begin_success_writes {σ : Type} (c : Chip σ) (s : σ)
    (h1 : checkProd c s = 0x50) (h2 : checkManu c s = 0x5D)
    (h3 : checkRev c s = 0x83) :
    (beginBody c ⟨s, []⟩).1 = true ∧
      (beginBody c ⟨s, []⟩).2.log =
        [.rd CAP1188_PRODID (readVal c s CAP1188_PRODID),
         .rd CAP1188_PRODID (readVal c (readSt c s CAP1188_PRODID) CAP1188_PRODID),
         .rd CAP1188_MANUID (readVal c (readSt c (readSt c s CAP1188_PRODID) CAP1188_PRODID) CAP1188_MANUID),
         .rd CAP1188_REV (readVal c (readSt c (readSt c (readSt c s CAP1188_PRODID) CAP1188_PRODID) CAP1188_MANUID) CAP1188_REV),
         .rd CAP1188_PRODID 0x50,
         .rd CAP1188_MANUID 0x5D,
         .rd CAP1188_REV 0x83,
         .wr CAP1188_MTBLK 0,
         .wr CAP1188_LEDLINK 0xFF,
         .wr CAP1188_STANDBYCFG 0x30] ∧
      regWrites (beginBody c ⟨s, []⟩).2.log =
        [.wr CAP1188_MTBLK 0, .wr CAP1188_LEDLINK 0xFF,
         .wr CAP1188_STANDBYCFG 0x30] := by
  simp only [beginBody, readRegister, writeRegister, checkProd, checkManu,
    checkRev, stAfterPrints, stAfterProd, stAfterManu] at *
  simp [h1, h2, h3, regWrites]

theorem claim_begin_success_writes_witness :
    (beginBody regFile ⟨goodRegs, []⟩).1 = true ∧
      (beginBody regFile ⟨goodRegs, []⟩).2.log =
        [.rd 0xFD 0x50, .rd 0xFD 0x50, .rd 0xFE 0x5D, .rd 0xFF 0x83,
         .rd 0xFD 0x50, .rd 0xFE 0x5D, .rd 0xFF 0x83,
         .wr 0x2A 0, .wr 0x72 0xFF, .wr 0x41 0x30] ∧
      regWrites (beginBody regFile ⟨goodRegs, []⟩).2.log =
        [.wr 0x2A 0, .wr 0x72 0xFF, .wr 0x41 0x30] :=
  claim_begin_success_writes regFile goodRegs (by decide) (by decide)
    (by decide)

/-- C3: when the sensor-input-status read (register 0x03) returns a non-zero
byte `t`, `touched()` additionally reads MAIN (0x00), writes back to MAIN
exactly the value read with bit 0 cleared (all other bits unchanged), and
returns `t`. -/
theorem claim_touched_nonzero_ack {σ : Type} (c : Chip σ) (s : σ)
    (h : readVal c s CAP1188_SENINPUTSTATUS ≠ 0) :
    (touched c ⟨s, []⟩).1 = readVal c s CAP1188_SENINPUTSTATUS ∧
    (touched c ⟨s, []⟩).2.log =
      [.rd CAP1188_SENINPUTSTATUS (readVal c s CAP1188_SENINPUTSTATUS),
       .rd CAP1188_MAIN (readVal c (readSt c s CAP1188_SENINPUTSTATUS) CAP1188_MAIN),
       .wr CAP1188_MAIN
         ((readVal c (readSt c s CAP1188_SENINPUTSTATUS) CAP1188_MAIN) &&& 254)] ∧
    ((readVal c (readSt c s CAP1188_SENINPUTSTATUS) CAP1188_MAIN) &&& 254).testBit 0 = false ∧
    (∀ i, 0 < i →
      ((readVal c (readSt c s CAP1188_SENINPUTSTATUS) CAP1188_MAIN) &&& 254).testBit i =
        (readVal c (readSt c s CAP1188_SENINPUTSTATUS) CAP1188_MAIN).testBit i) := by
  set m := readVal c (readSt c s CAP1188_SENINPUTSTATUS) CAP1188_MAIN with hm
  have hmlt : m < 256 := Nat.mod_lt _ (by norm_num)
  have hand : m &&& 254 < 256 := lt_of_le_of_lt Nat.and_le_right (by norm_num)
  have hx : (255 : Nat) ^^^ CAP1188_MAIN_INT = 254 := by decide
  refine ⟨?_, ?_, ?_, ?_⟩
  · simp [touched, readRegister, h]
  · simp [touched, readRegister, writeRegister, h, hx, Nat.mod_eq_of_lt hand,
      ← hm]
  · simp [Nat.testBit_and]
  · intro i hi
    rw [Nat.testBit_and]
    by_cases hi8 : i < 8
    · have ht : Nat.testBit 254 i = true := by interval_cases i <;> decide
      simp [ht]
    · have h1 : m.testBit i = false :=
        Nat.testBit_eq_false_of_lt (lt_of_lt_of_le hmlt (by
          calc (256 : Nat) = 2 ^ 8 := by norm_num
          _ ≤ 2 ^ i := Nat.pow_le_pow_right (by norm_num) (by omega)))
      simp [h1]

theorem claim_touched_nonzero_ack_witness :
    (touched regFile ⟨touchRegs, []⟩).1 = 0x01 ∧
    (touched regFile ⟨touchRegs, []⟩).2.log =
      [.rd CAP1188_SENINPUTSTATUS 0x01, .rd CAP1188_MAIN 0x31,
       .wr CAP1188_MAIN 0x30] ∧
    ((0x31 : Nat) &&& 254).testBit 0 = false := by
  have h := claim_touched_nonzero_ack regFile touchRegs (by decide)
  exact ⟨h.1, h.2.1, h.2.2.1⟩

/-- C4: when the sensor-input-status read (register 0x03) returns 0,
`touched()` returns 0 and its whole register trace is that single read: no
further read and no write of any register. -/
theorem claim_touched_zero_no_access {σ : Type} (c : Chip σ) (s : σ)
    (h : readVal c s CAP1188_SENINPUTSTATUS = 0) :
    (touched c ⟨s, []⟩).1 = 0 ∧
    (touched c ⟨s, []⟩).2.log = [.rd CAP1188_SENINPUTSTATUS 0] := by
  simp [touched, readRegister, h]

theorem claim_touched_zero_no_access_witness :
    (touched regFile ⟨zeroRegs, []⟩).1 = 0 ∧
    (touched regFile ⟨zeroRegs, []⟩).2.log = [.rd CAP1188_SENINPUTSTATUS 0] :=
  claim_touched_zero_no_access regFile zeroRegs (by decide)

/-- C5: for every 8-bit register address and value, `writeRegister` followed
by `readRegister` on the same address returns the written value, against a
faithful simulated chip, for each transport variant: the register-level
model, the current I2C and SPI devices (BusIO primitives), the legacy
two-phase SPI protocol, and the legacy Wire I2C protocol. -/
theorem claim_write_read_roundTrip (reg v : Nat) (hr : reg < 256)
    (hv : v < 256) (f : Nat → Nat) (st : CapSpiState) (w : WireChipState)
    (addr : Nat) :
    (readRegister regFile reg (writeRegister regFile reg v ⟨f, []⟩)).1 = v ∧
    (readRegisterI2C (busDevOf i2cChip) reg
      (writeRegisterI2C (busDevOf i2cChip) reg v f)).1 = v ∧
    (readRegisterSPI capSpiBusDev reg
      (writeRegisterSPI capSpiBusDev reg v st)).1 = v ∧
    (spiReadRegister (spiChipBus capSpiChip) reg
      (spiWriteRegister (spiChipBus capSpiChip) reg v st)).1 = v ∧
    (legacyReadRegisterI2C wireChip addr reg
      (legacyWriteRegisterI2C wireChip addr reg v w)).1 = v := by
  refine ⟨?_, ?_, ?_, ?_, ?_⟩
  · simp [readRegister, writeRegister, readVal, readSt, regFile,
      Nat.mod_eq_of_lt hr, Nat.mod_eq_of_lt hv]
  · simp [readRegisterI2C, writeRegisterI2C, busDevOf, i2cChip, storeFrom,
      Nat.mod_eq_of_lt hr, Nat.mod_eq_of_lt hv, List.range_succ]
  · simp [readRegisterSPI, writeRegisterSPI, capSpiBusDev, capSpiWriteBytes,
      capSpiReadBytes, capSpiStep, Nat.mod_eq_of_lt hr, Nat.mod_eq_of_lt hv,
      List.range_succ]
  · simp [spiReadRegister, spiWriteRegister, spixfer, spiChipBus, capSpiChip,
      capSpiStep, Nat.mod_eq_of_lt hr, Nat.mod_eq_of_lt hv]
  · simp [legacyReadRegisterI2C, legacyWriteRegisterI2C, wireChip, storeFrom,
      Nat.mod_eq_of_lt hr, Nat.mod_eq_of_lt hv, List.range_succ]

theorem claim_write_read_roundTrip_witness :
    (0x2A : Nat) < 256 ∧ (0x77 : Nat) < 256 ∧
    (readRegister regFile 0x2A
      (writeRegister regFile 0x2A 0x77 ⟨zeroRegs, []⟩)).1 = 0x77 :=
  ⟨by decide, by decide,
   (claim_write_read_roundTrip 0x2A 0x77 (by decide) (by decide) zeroRegs
     ⟨zeroRegs, 0, none⟩ ⟨zeroRegs, 0, [], []⟩ 0x29).1⟩

/-- C6 (counterexample): in the current BusIO-based variant, `readRegister`
at register 0x03 on the SPI transport asks the device for exactly one bus
transaction — a single combined write-then-read carrying the three command
bytes 0x7D, 0x03, 0x7F and reading one byte — so it does not emit two
chip-select-bracketed phases and never toggles chip-select mid-sequence
(chip-select framing of that one transaction lives inside the external
device primitive). -/
theorem claim_spi_read_single_txn_cx :
    (readRegisterSPI (logBusDev nullResponder) 0x03 ((), [])).2.2 =
      [.wtr [0x7D, 0x03, 0x7F] 1] ∧
    (readRegisterSPI (logBusDev nullResponder) 0x03 ((), [])).2.2.length = 1 := by
  constructor <;> rfl

/-- C6 (amended): in the legacy variant, `readRegister(reg)` on SPI — with
either the hardware peripheral or the bit-banged transfer behind `spixfer` —
emits exactly two chip-select-bracketed phases against any responder: CS
low, bytes 0x7D then `reg`, CS high; then CS low again, byte 0x7F, one byte
clocked in (driving 0 as the dummy), CS high, the chip-select line toggled
between the address-set phase and the read phase, and the returned value is
the byte clocked in last; the current BusIO-based variant instead issues the
command bytes 0x7D, `reg`, 0x7F and the one-byte read as a single combined
write-then-read transaction of the device. -/
theorem claim_spi_read_phases_by_variant {τ υ : Type} (c : SpiResponder τ)
    (t : τ) (r : BusResponder υ) (u : υ) (reg : Nat) :
    (∃ r0 r1 r2 v,
      (spiReadRegister (logSpiBus c) reg (t, [])).2.2 =
        [.csLow, .xfer 0x7D r0, .xfer (reg % 256) r1, .csHigh,
         .csLow, .xfer 0x7F r2, .xfer 0 v, .csHigh] ∧
      (spiReadRegister (logSpiBus c) reg (t, [])).1 = v % 256) ∧
    (readRegisterSPI (logBusDev r) reg (u, [])).2.2 =
      [.wtr [0x7D, reg % 256, 0x7F] 1] :=
  ⟨⟨_, _, _, _, rfl, rfl⟩, rfl⟩

/-- C7 (amended): in the current BusIO-based variant, `readRegister(reg)` on
the I2C transport performs exactly one bus transaction: the device's atomic
combined write-then-read carrying the register address byte and reading one
byte back. -/
theorem claim_i2c_read_atomic_busio {τ : Type} (r : BusResponder τ) (t : τ)
    (reg : Nat) :
    (readRegisterI2C (logBusDev r) reg (t, [])).2.2 =
      [.wtr [reg % 256] 1] := by
  rfl

/-- C7 (counterexample): in the legacy Wire-based variant, `readRegister`
at register 0x03 produces the bus trace begin-transmission, address-byte
write, stop condition, read request, read — the stop condition sits between
the register-address write and the data read, so the access is not a single
atomic combined write-then-read transaction. -/
theorem claim_i2c_read_stop_cx :
    (legacyReadRegisterI2C logWire 0x29 0x03 []).2 =
      [.beginTx 0x29, .writeByte 0x03, .stop, .requestFrom 0x29 1,
       .readByte 0] ∧
    (legacyReadRegisterI2C logWire 0x29 0x03 []).2.get? 2 = some .stop := by
  constructor <;> rfl

/-- C8: a software (bit-banged) SPI byte transfer drives MOSI with the data
byte's bits MSB-first, produces exactly one rising clock edge per bit with
the MISO sample taken right after it, and assembles the reply MSB-first from
the eight samples; in particular transferring 0b10110010 drives MOSI with
the level sequence 1,0,1,1,0,0,1,0. -/
theorem claim_soft_spi_transfer (data : Nat) (misoIn : Nat → Bool) :
    spixferSoft data misoIn = (byteOfBits misoIn, softTrace data misoIn) ∧
    mosiLevels (spixferSoft 0b10110010 misoIn).2 =
      [true, false, true, true, false, false, true, false] := by
  refine ⟨Prod.ext_iff.mpr ⟨softxfer_reply data misoIn,
    softxfer_events data misoIn⟩, ?_⟩
  rw [softxfer_events]
  simp [mosiLevels, softTrace]
  decide

/-- C9: the transport is decided by which constructor ran and no operation
changes it: an I2C-constructed instance dispatches every operation after
`begin()` to the I2C path, and an SPI-constructed instance (hardware or
software) dispatches every operation, before or after `begin()`, to the SPI
path, whatever sequence of operations runs. -/
theorem claim_transport_fixed (r : Int) (cs clk miso mosi : Nat)
    (ops : List DriverOp) :
    transportUsed (opsFields (beginFields (mkI2C r)) ops) = .i2c ∧
    transportUsed (opsFields (mkHwSPI cs r) ops) = .spi ∧
    transportUsed (opsFields (mkSwSPI clk miso mosi cs r) ops) = .spi := by
  refine ⟨?_, ?_, ?_⟩
  · rw [opsFields_fixed (beginFields (mkI2C r)) rfl]
    rfl
  · rw [opsFields_fixed (mkHwSPI cs r) rfl]
    rfl
  · rw [opsFields_fixed (mkSwSPI clk miso mosi cs r) rfl]
    rfl

/-- C10 (amended): every `begin()` execution that reaches the identity check
performs between five and seven identity-register reads: one discarded, three
printed, then one to three check reads — the short-circuiting `||` stops at
the first mismatch; when `begin()` returns true there are exactly seven, and
the three values compared (0x50, 0x5D, 0x83) come from the last three reads,
later than the printed ones. -/
theorem claim_begin_identity_reads {σ : Type} (c : Chip σ) (s : σ) :
    (5 ≤ idReads (beginBody c ⟨s, []⟩).2.log ∧
     idReads (beginBody c ⟨s, []⟩).2.log ≤ 7) ∧
    ((beginBody c ⟨s, []⟩).1 = true →
      (beginBody c ⟨s, []⟩).2.log =
        [.rd CAP1188_PRODID (readVal c s CAP1188_PRODID),
         .rd CAP1188_PRODID (readVal c (readSt c s CAP1188_PRODID) CAP1188_PRODID),
         .rd CAP1188_MANUID (readVal c (readSt c (readSt c s CAP1188_PRODID) CAP1188_PRODID) CAP1188_MANUID),
         .rd CAP1188_REV (readVal c (readSt c (readSt c (readSt c s CAP1188_PRODID) CAP1188_PRODID) CAP1188_MANUID) CAP1188_REV),
         .rd CAP1188_PRODID 0x50, .rd CAP1188_MANUID 0x5D, .rd CAP1188_REV 0x83,
         .wr CAP1188_MTBLK 0, .wr CAP1188_LEDLINK 0xFF,
         .wr CAP1188_STANDBYCFG 0x30]) := by
  by_cases h1 : checkProd c s = 0x50
  · by_cases h2 : checkManu c s = 0x5D
    · by_cases h3 : checkRev c s = 0x83
      · have hlog : (beginBody c ⟨s, []⟩).2.log =
            [.rd CAP1188_PRODID (readVal c s CAP1188_PRODID),
             .rd CAP1188_PRODID (readVal c (readSt c s CAP1188_PRODID) CAP1188_PRODID),
             .rd CAP1188_MANUID (readVal c (readSt c (readSt c s CAP1188_PRODID) CAP1188_PRODID) CAP1188_MANUID),
             .rd CAP1188_REV (readVal c (readSt c (readSt c (readSt c s CAP1188_PRODID) CAP1188_PRODID) CAP1188_MANUID) CAP1188_REV),
             .rd CAP1188_PRODID 0x50, .rd CAP1188_MANUID 0x5D, .rd CAP1188_REV 0x83,
             .wr CAP1188_MTBLK 0, .wr CAP1188_LEDLINK 0xFF,
             .wr CAP1188_STANDBYCFG 0x30] := by
          simp only [beginBody, readRegister, writeRegister, checkProd,
            checkManu, checkRev, stAfterPrints, stAfterProd, stAfterManu] at *
          simp [h1, h2, h3]
        rw [hlog]
        refine ⟨⟨?_, ?_⟩, fun _ => rfl⟩ <;> simp [idReads]
      · have hlog : (beginBody c ⟨s, []⟩).2.log =
            [.rd CAP1188_PRODID (readVal c s CAP1188_PRODID),
             .rd CAP1188_PRODID (readVal c (readSt c s CAP1188_PRODID) CAP1188_PRODID),
             .rd CAP1188_MANUID (readVal c (readSt c (readSt c s CAP1188_PRODID) CAP1188_PRODID) CAP1188_MANUID),
             .rd CAP1188_REV (readVal c (readSt c (readSt c (readSt c s CAP1188_PRODID) CAP1188_PRODID) CAP1188_MANUID) CAP1188_REV),
             .rd CAP1188_PRODID 0x50, .rd CAP1188_MANUID 0x5D,
             .rd CAP1188_REV (checkRev c s)] := by
          simp only [beginBody, readRegister, writeRegister, checkProd,
            checkManu, checkRev, stAfterPrints, stAfterProd, stAfterManu] at *
          simp [h1, h2, h3]
        have hres : (beginBody c ⟨s, []⟩).1 = false := by
          simp only [beginBody, readRegister, writeRegister, checkProd,
            checkManu, checkRev, stAfterPrints, stAfterProd, stAfterManu] at *
          simp [h1, h2, h3]
        rw [hlog, hres]
        refine ⟨⟨?_, ?_⟩, by simp⟩ <;> simp [idReads]
    · have hlog : (beginBody c ⟨s, []⟩).2.log =
          [.rd CAP1188_PRODID (readVal c s CAP1188_PRODID),
           .rd CAP1188_PRODID (readVal c (readSt c s CAP1188_PRODID) CAP1188_PRODID),
           .rd CAP1188_MANUID (readVal c (readSt c (readSt c s CAP1188_PRODID) CAP1188_PRODID) CAP1188_MANUID),
           .rd CAP1188_REV (readVal c (readSt c (readSt c (readSt c s CAP1188_PRODID) CAP1188_PRODID) CAP1188_MANUID) CAP1188_REV),
           .rd CAP1188_PRODID 0x50, .rd CAP1188_MANUID (checkManu c s)] := by
        simp only [beginBody, readRegister, writeRegister, checkProd,
          checkManu, checkRev, stAfterPrints, stAfterProd, stAfterManu] at *
        simp [h1, h2]
      have hres : (beginBody c ⟨s, []⟩).1 = false := by
        simp only [beginBody, readRegister, writeRegister, checkProd,
          checkManu, checkRev, stAfterPrints, stAfterProd, stAfterManu] at *
        simp [h1, h2]
      rw [hlog, hres]
      refine ⟨⟨?_, ?_⟩, by simp⟩ <;> simp [idReads]
  · have hlog : (beginBody c ⟨s, []⟩).2.log =
        [.rd CAP1188_PRODID (readVal c s CAP1188_PRODID),
         .rd CAP1188_PRODID (readVal c (readSt c s CAP1188_PRODID) CAP1188_PRODID),
         .rd CAP1188_MANUID (readVal c (readSt c (readSt c s CAP1188_PRODID) CAP1188_PRODID) CAP1188_MANUID),
         .rd CAP1188_REV (readVal c (readSt c (readSt c (readSt c s CAP1188_PRODID) CAP1188_PRODID) CAP1188_MANUID) CAP1188_REV),
         .rd CAP1188_PRODID (checkProd c s)] := by
      simp only [beginBody, readRegister, writeRegister, checkProd, checkManu,
        checkRev, stAfterPrints, stAfterProd, stAfterManu] at *
      simp [h1]
    have hres : (beginBody c ⟨s, []⟩).1 = false := by
      simp only [beginBody, readRegister, writeRegister, checkProd, checkManu,
        checkRev, stAfterPrints, stAfterProd, stAfterManu] at *
      simp [h1]
    rw [hlog, hres]
    refine ⟨⟨?_, ?_⟩, by simp⟩ <;> simp [idReads]

theorem claim_begin_identity_reads_witness :
    (beginBody regFile ⟨goodRegs, []⟩).2.log =
      [.rd 0xFD 0x50, .rd 0xFD 0x50, .rd 0xFE 0x5D, .rd 0xFF 0x83,
       .rd 0xFD 0x50, .rd 0xFE 0x5D, .rd 0xFF 0x83,
       .wr 0x2A 0, .wr 0x72 0xFF, .wr 0x41 0x30] :=
  (claim_begin_identity_reads regFile goodRegs).2 (by decide)

/-- C10 (counterexample): on a chip whose every register reads zero, the
execution of `begin()` reaches the identity check but performs only five
identity-register reads, not seven: the short-circuiting `||` returns after
the first mismatching check read. -/
theorem claim_begin_five_reads_cx :
    idReads (beginBody regFile ⟨zeroRegs, []⟩).2.log = 5 ∧
    idReads (beginBody regFile ⟨zeroRegs, []⟩).2.log ≠ 7 := by
  constructor <;> decide

end CAP1188
